import Mathlib

/-!
Verification of the TimeEdit API client (`src/unnamed/part_000`).

The file shallowly embeds the event-normalization and filtering pipeline of
the `TimeEditAPI` class: the configuration captured by the constructor, the
raw-reservation → event mapping of `getCourseEvents`, the three filter
predicates (`eventInCurrentKTHPeriod`, `filterEmptyEvents`, `eventBeforeDate`)
and the unused `eventAfterDate`, and the `getKTHLocationURL` location
resolver.  Luxon `DateTime` values are modelled as records of calendar
fields plus a validity flag (luxon never throws on a bad parse; it returns
an *Invalid* DateTime whose fields are NaN and which compares false against
everything).  JavaScript runtime errors (`TypeError` from dereferencing
`undefined`) are modelled with `Except`.
-/

/-- One step of JavaScript `String.prototype.split` with a non-empty string
separator: scan left to right, cut at each leftmost occurrence of `sep`.
The fuel argument is an upper bound on the scan length, so the recursion is
structural; `jsSplit` always supplies enough fuel. -/
def jsSplitAux (sep : List Char) : Nat → List Char → List Char → List (List Char)
  | 0, acc, _ => [acc.reverse]
  | _ + 1, acc, [] => [acc.reverse]
  | fuel + 1, acc, c :: cs =>
    if sep.isPrefixOf (c :: cs) then
      acc.reverse :: jsSplitAux sep fuel [] ((c :: cs).drop sep.length)
    else
      jsSplitAux sep fuel (c :: acc) cs

/-- JavaScript `s.split(sep)` for a string separator and no limit: the empty
string splits to `[""]` when `sep` is non-empty, and an empty separator
splits into the individual characters. -/
def jsSplit (s sep : String) : List String :=
  if sep.data.isEmpty then s.data.map (fun c => String.mk [c])
  else (jsSplitAux sep.data (s.data.length + 1) [] s.data).map String.mk

/-- One step of JavaScript `String.prototype.replace` with a string pattern:
replace only the leftmost occurrence.  Fuel bounds the scan as in
`jsSplitAux`. -/
def jsReplaceFirstAux (pat repl : List Char) : Nat → List Char → List Char
  | 0, s => s
  | _ + 1, [] => []
  | fuel + 1, c :: cs =>
    if pat.isPrefixOf (c :: cs) then repl ++ (c :: cs).drop pat.length
    else c :: jsReplaceFirstAux pat repl fuel cs

/-- JavaScript `s.replace(pat, repl)` with a string pattern: replaces only
the FIRST occurrence of `pat`, or returns `s` unchanged when `pat` does not
occur; an empty pattern matches at position 0. -/
def jsReplaceFirst (s pat repl : String) : String :=
  if pat.data.isEmpty then String.mk (repl.data ++ s.data)
  else String.mk (jsReplaceFirstAux pat.data repl.data (s.data.length + 1) s.data)

/-- The numeric value of a decimal digit character. -/
def digitVal (c : Char) : Option Nat :=
  if '0' ≤ c ∧ c ≤ '9' then some (c.toNat - '0'.toNat) else none

/-- Accumulate decimal digits into a number; any non-digit fails. -/
def parseNatAux : List Char → Nat → Option Nat
  | [], acc => some acc
  | c :: cs, acc => do
    let d ← digitVal c
    parseNatAux cs (acc * 10 + d)

/-- Parse a non-empty all-digit string as a natural number. -/
def parseNatStr (s : String) : Option Nat :=
  if s.data.isEmpty then none else parseNatAux s.data 0

/-- Model of a luxon `DateTime`: calendar fields plus a validity flag.
An invalid DateTime (failed parse) has all fields zero and `valid := false`;
in luxon its fields are NaN, which belongs to no list and compares false,
matching the uses below. -/
structure DateTime where
  valid : Bool
  year : Int
  month : Nat
  day : Nat
  hour : Nat
  minute : Nat
  second : Nat
deriving Repr, DecidableEq

/-- The invalid DateTime that luxon returns for an unparseable input. -/
def DateTime.invalidDT : DateTime :=
  { valid := false, year := 0, month := 0, day := 0, hour := 0, minute := 0, second := 0 }

/-- Parse a `YYYY-MM-DD` calendar date. -/
def parseDatePart (s : String) : Option (Int × Nat × Nat) :=
  match jsSplit s "-" with
  | [y, m, d] => do
    let yn ← parseNatStr y
    let mn ← parseNatStr m
    let dn ← parseNatStr d
    if 1 ≤ mn ∧ mn ≤ 12 ∧ 1 ≤ dn ∧ dn ≤ 31 then some ((yn : Int), mn, dn) else none
  | _ => none

/-- Parse a `HH:MM` or `HH:MM:SS` time of day. -/
def parseTimePart (s : String) : Option (Nat × Nat × Nat) :=
  match jsSplit s ":" with
  | [h, mi] => do
    let hn ← parseNatStr h
    let min ← parseNatStr mi
    if hn ≤ 23 ∧ min ≤ 59 then some (hn, min, 0) else none
  | [h, mi, se] => do
    let hn ← parseNatStr h
    let min ← parseNatStr mi
    let sn ← parseNatStr se
    if hn ≤ 23 ∧ min ≤ 59 ∧ sn ≤ 59 then some (hn, min, sn) else none
  | _ => none

/-- Model of luxon `DateTime.fromISO`: accepts `date` or `dateTtime`;
an unparseable string yields the invalid DateTime (luxon never throws). -/
def DateTime.fromISO (s : String) : DateTime :=
  match jsSplit s "T" with
  | [d] =>
    match parseDatePart d with
    | some (y, m, dd) => { valid := true, year := y, month := m, day := dd, hour := 0, minute := 0, second := 0 }
    | none => DateTime.invalidDT
  | [d, t] =>
    match parseDatePart d, parseTimePart t with
    | some (y, m, dd), some (h, mi, se) =>
      { valid := true, year := y, month := m, day := dd, hour := h, minute := mi, second := se }
    | _, _ => DateTime.invalidDT
  | _ => DateTime.invalidDT

/-- Model of luxon `DateTime.fromSQL`: accepts `date` or `date time`. -/
def DateTime.fromSQL (s : String) : DateTime :=
  match jsSplit s " " with
  | [d] =>
    match parseDatePart d with
    | some (y, m, dd) => { valid := true, year := y, month := m, day := dd, hour := 0, minute := 0, second := 0 }
    | none => DateTime.invalidDT
  | [d, t] =>
    match parseDatePart d, parseTimePart t with
    | some (y, m, dd), some (h, mi, se) =>
      { valid := true, year := y, month := m, day := dd, hour := h, minute := mi, second := se }
    | _, _ => DateTime.invalidDT
  | _ => DateTime.invalidDT

/-- Model of luxon `<` on DateTimes: compares instants chronologically
(lexicographically on the calendar fields); any comparison with an invalid
DateTime is false (NaN comparisons are false in JavaScript). -/
def DateTime.lt (a b : DateTime) : Bool :=
  a.valid && b.valid &&
    (if a.year ≠ b.year then a.year < b.year
     else if a.month ≠ b.month then a.month < b.month
     else if a.day ≠ b.day then a.day < b.day
     else if a.hour ≠ b.hour then a.hour < b.hour
     else if a.minute ≠ b.minute then a.minute < b.minute
     else a.second < b.second)

/-- Model of luxon `dt.hasSame(other, 'year')`: false when either operand is
invalid, otherwise compares the year fields. -/
def DateTime.hasSameYear (a b : DateTime) : Bool :=
  a.valid && b.valid && a.year == b.year

/-- An event as built by `getCourseEvents`.  `type` is `columns[5]`, which in
JavaScript is `undefined` (here `none`) when the row has fewer than six
columns; reading it does not throw. -/
structure Event where
  startDate : DateTime
  endDate : DateTime
  lecturers : List String
  location : List String
  type : Option String
deriving Repr, DecidableEq

/-- A raw reservation row from the JSON feed.  `columns` is the positional
column array; an index beyond its length reads as JavaScript `undefined`,
modelled by `List.get?` returning `none`. -/
structure RawReservation where
  startdate : String
  starttime : String
  enddate : String
  endtime : String
  columns : List String
deriving Repr, DecidableEq

/-- The configuration fields of a `TimeEditAPI` instance, as assigned by the
constructor.  `filterStartDate`/`filterEndDate` are nullable strings
(`none` models JavaScript `null`). -/
structure TimeEditAPI where
  baseUrl : Option String
  filterEmpty : Bool
  filterStartDate : Option String
  filterEndDate : Option String
  filterToSemester : Bool
  useKTHPlaces : Bool
deriving Repr, DecidableEq

/-- The constructor's destructured parameter object: `none` in a field means
the caller omitted it, so the destructuring default applies. -/
structure CtorArgs where
  baseUrl : Option String
  filterEmpty : Option Bool
  filterToSemester : Option Bool
  startDate : Option String
  endDate : Option String
  useKTHPlaces : Option Bool
deriving Repr, DecidableEq

/-- The `TimeEditAPI` constructor: destructuring defaults are
`baseUrl = null`, `filterEmpty = false`, `filterToSemester = true`,
`startDate = null`, `endDate = null`, `useKTHPlaces = false`, and the
fields are assigned verbatim. -/
def TimeEditAPI.construct (args : CtorArgs) : TimeEditAPI :=
  { baseUrl := args.baseUrl
    filterEmpty := args.filterEmpty.getD false
    filterToSemester := args.filterToSemester.getD true
    filterStartDate := args.startDate
    filterEndDate := args.endDate
    useKTHPlaces := args.useKTHPlaces.getD false }

/-- JavaScript truthiness of a nullable string: `null` and `""` are falsy,
every other string is truthy. -/
def isTruthy : Option String → Bool
  | none => false
  | some s => !(s == "")

/-- Function `getKTHLocationURL`: for each location token, strips the first `§` (via
JavaScript `replace` with a string pattern) and pushes the KTH search URL
built from the cleaned token onto the result array. -/
def getKTHLocationURL (locations : List String) : List String :=
  locations.foldl
    (fun urls location =>
      urls ++ ["https://www.kth.se/search?q=" ++ jsReplaceFirst location "§" ""
        ++ "&entityFilter=kth-place&filterLabel=Facilities&lang=en"])
    []

/-- Function `filterEmptyEvents`: drops an event when `lecturers` or `location` has
length zero or `type == ''` (JavaScript loose equality: `undefined == ''`
is false, so a missing `type` does not drop the event). -/
def filterEmptyEvents (event : Event) : Bool :=
  if event.lecturers.length == 0 then false
  else if event.location.length == 0 then false
  else if event.type == some "" then false
  else true

/-- Function `eventInCurrentKTHPeriod`, with the call to `DateTime.now()` made an
explicit parameter `now`.  An invalid `startDate` has month `0` here (NaN in
luxon), which belongs to neither semester list, and `hasSame` is false for
an invalid operand, matching luxon. -/
def eventInCurrentKTHPeriod (now : DateTime) (event : Event) : Bool :=
  let currentSemester : List Nat :=
    if 1 < now.month ∧ now.month < 7 then [1, 2, 3, 4, 5, 6]
    else if 7 < now.month ∧ now.month ≤ 12 then [8, 9, 10, 11, 12]
    else []
  currentSemester.contains event.startDate.month && now.hasSameYear event.startDate

/-- Function `eventBeforeDate` as a method invoked with a proper `this` binding:
compares the event's `endDate` against `DateTime.fromSQL(this.filterStartDate)`.
(When `filterStartDate` is `null` the luxon parse yields an invalid value,
so the comparison is false; that case is never reached in the pipeline.) -/
def eventBeforeDate (this' : TimeEditAPI) (event : Event) : Bool :=
  DateTime.lt event.endDate (DateTime.fromSQL (this'.filterStartDate.getD ""))

/-- Function `eventAfterDate` as a method invoked with a proper `this` binding; it is
declared in the class but never called anywhere in the pipeline. -/
def eventAfterDate (this' : TimeEditAPI) (event : Event) : Bool :=
  DateTime.lt event.startDate (DateTime.fromSQL (this'.filterEndDate.getD ""))

/-- A JavaScript runtime error: the `TypeError` raised by dereferencing
`undefined`. -/
inductive JsError where
  | typeError
deriving Repr, DecidableEq

/-- The body of the `.map` callback in `getCourseEvents`.  `columns[3].split`
and `columns[4].split` throw a `TypeError` when the entry is missing
(`undefined.split`); `columns[5]` is read without a method call, so a
missing entry just yields `undefined` (`none`). -/
def mapReservation (api : TimeEditAPI) (event : RawReservation) : Except JsError Event :=
  match event.columns.get? 3, event.columns.get? 4 with
  | some c3, some c4 =>
    .ok { startDate := DateTime.fromISO (event.startdate ++ "T" ++ event.starttime)
          endDate := DateTime.fromISO (event.enddate ++ "T" ++ event.endtime)
          lecturers := jsSplit c3 ", "
          location := if api.useKTHPlaces then getKTHLocationURL (jsSplit c4 ", ")
                      else jsSplit c4 ", "
          type := event.columns.get? 5 }
  | _, _ => .error .typeError

/-- Modelling `reservations.map(...)`: rows are mapped left to right and the first
thrown `TypeError` aborts the whole call. -/
def mapRows (api : TimeEditAPI) : List RawReservation → Except JsError (List Event)
  | [] => .ok []
  | r :: rs =>
    match mapReservation api r with
    | .error er => .error er
    | .ok ev =>
      match mapRows api rs with
      | .error er => .error er
      | .ok evs => .ok (ev :: evs)

/-- The JSON body: `reservations` is `none` when the field is absent
(`undefined`), in which case `.map` throws. -/
structure JsonData where
  reservations : Option (List RawReservation)
deriving Repr, DecidableEq

/-- Function `getCourseEvents` after the fetch, as a function of the configuration,
the current instant and the parsed JSON body.  The three filter stages run
in source order.  `this.eventInCurrentKTHPeriod` and `this.filterEmptyEvents`
are passed unbound but read no instance state, so they behave as pure
predicates; `this.eventBeforeDate` is also passed unbound and DOES read
`this.filterStartDate`, so under strict mode its first invocation throws a
`TypeError` — `Array.filter` only invokes the callback once per element,
hence an empty array passes through and returns `[]` normally. -/
def getCourseEvents (api : TimeEditAPI) (now : DateTime) (jsonData : JsonData) :
    Except JsError (List Event) :=
  match jsonData.reservations with
  | none => .error .typeError
  | some rows =>
    match mapRows api rows with
    | .error er => .error er
    | .ok courseEvents =>
    let courseEvents :=
      if api.filterToSemester then courseEvents.filter (eventInCurrentKTHPeriod now)
      else courseEvents
    let courseEvents :=
      if api.filterEmpty then courseEvents.filter filterEmptyEvents
      else courseEvents
    if isTruthy api.filterStartDate then
      if courseEvents.isEmpty then .ok [] else .error .typeError
    else
      .ok courseEvents

/-- The "current KTH period" exactly as the claim words it: `{1,…,6}` when the
evaluation month is strictly between 1 and 7, `{8,…,12}` when it is strictly
greater than 7 and at most 12, and empty otherwise. -/
def kthPeriodSpec (evalMonth : Nat) : List Nat :=
  if 1 < evalMonth ∧ evalMonth < 7 then [1, 2, 3, 4, 5, 6]
  else if 7 < evalMonth ∧ evalMonth ≤ 12 then [8, 9, 10, 11, 12]
  else []

/-! ### Helper lemmas -/

/-- Appending via `push` inside a fold is the same as mapping. -/
theorem foldl_push_eq_map {α β : Type} (f : α → β) (l : List α) (acc : List β) :
    l.foldl (fun urls x => urls ++ [f x]) acc = acc ++ l.map f := by
  induction l generalizing acc with
  | nil => simp
  | cons a as ih => simp [List.foldl, ih]

/-- A row whose column 3 or column 4 is missing makes the map callback throw. -/
theorem mapReservation_error_of_missing (api : TimeEditAPI) (r : RawReservation)
    (h : r.columns.get? 3 = none ∨ r.columns.get? 4 = none) :
    mapReservation api r = .error .typeError := by
  unfold mapReservation
  rcases h with h | h
  · rw [h]
  · rw [h]
    cases r.columns.get? 3 <;> rfl

/-- If the whole row map succeeds, every individual row mapped successfully. -/
theorem mapRows_ok_forall {api : TimeEditAPI} {rows : List RawReservation} {l : List Event}
    (h : mapRows api rows = .ok l) :
    ∀ r ∈ rows, ∃ e, mapReservation api r = .ok e := by
  induction rows generalizing l with
  | nil => intro r hr; cases hr
  | cons r rs ih =>
    intro r' hr'
    unfold mapRows at h
    cases hm : mapReservation api r with
    | error er => rw [hm] at h; cases h
    | ok ev =>
      rw [hm] at h
      cases hms : mapRows api rs with
      | error er => rw [hms] at h; cases h
      | ok evs =>
        rw [hms] at h
        rcases List.mem_cons.mp hr' with rfl | hmem
        · exact ⟨ev, hm⟩
        · exact ih hms r' hmem

/-- A single throwing row aborts the whole row map with a `TypeError`. -/
theorem mapRows_error_of_mem {api : TimeEditAPI} {rows : List RawReservation}
    {r : RawReservation} (hr : r ∈ rows)
    (he : mapReservation api r = .error .typeError) :
    mapRows api rows = .error .typeError := by
  induction rows with
  | nil => cases hr
  | cons r' rs ih =>
    unfold mapRows
    cases hm : mapReservation api r' with
    | error er => cases er; rfl
    | ok ev =>
      rcases List.mem_cons.mp hr with rfl | hmem
      · rw [hm] at he; cases he
      · rw [ih hmem]

/-! ### Claim theorems -/

/-- C1: `eventInCurrentKTHPeriod` keeps an event iff the event's `startDate`
year equals the current year and the `startDate` month lies in the current
KTH period (`{1,…,6}` when the evaluation month is strictly between 1 and 7,
`{8,…,12}` when it is strictly greater than 7 and at most 12, empty
otherwise); in particular for evaluation month exactly 1 or exactly 7 no
event passes. -/
theorem semesterFilter_keeps_iff_period (now : DateTime) (e : Event)
    (hn : now.valid = true) (he : e.startDate.valid = true) :
    (eventInCurrentKTHPeriod now e = true ↔
      e.startDate.year = now.year ∧ e.startDate.month ∈ kthPeriodSpec now.month) ∧
    ((now.month = 1 ∨ now.month = 7) → eventInCurrentKTHPeriod now e = false) := by
  constructor
  · simp only [eventInCurrentKTHPeriod, kthPeriodSpec, DateTime.hasSameYear, hn, he,
      Bool.true_and, Bool.and_eq_true, List.elem_iff, beq_iff_eq]
    exact ⟨fun ⟨a, b⟩ => ⟨b.symm, a⟩, fun ⟨a, b⟩ => ⟨b, a.symm⟩⟩
  · rintro (h | h) <;>
      simp [eventInCurrentKTHPeriod, h]

/-- Witness for C1 at evaluation instant 2024-03-15 and an event starting
2024-04-01. -/
theorem semesterFilter_keeps_iff_period_witness :
    (eventInCurrentKTHPeriod ⟨true, 2024, 3, 15, 0, 0, 0⟩
        ⟨⟨true, 2024, 4, 1, 10, 0, 0⟩, DateTime.invalidDT, ["A"], ["R"], some "L"⟩ = true ↔
      (⟨true, 2024, 4, 1, 10, 0, 0⟩ : DateTime).year = (⟨true, 2024, 3, 15, 0, 0, 0⟩ : DateTime).year ∧
      (⟨true, 2024, 4, 1, 10, 0, 0⟩ : DateTime).month ∈ kthPeriodSpec (⟨true, 2024, 3, 15, 0, 0, 0⟩ : DateTime).month) ∧
    (((⟨true, 2024, 3, 15, 0, 0, 0⟩ : DateTime).month = 1 ∨ (⟨true, 2024, 3, 15, 0, 0, 0⟩ : DateTime).month = 7) →
      eventInCurrentKTHPeriod ⟨true, 2024, 3, 15, 0, 0, 0⟩
        ⟨⟨true, 2024, 4, 1, 10, 0, 0⟩, DateTime.invalidDT, ["A"], ["R"], some "L"⟩ = false) :=
  semesterFilter_keeps_iff_period ⟨true, 2024, 3, 15, 0, 0, 0⟩
    ⟨⟨true, 2024, 4, 1, 10, 0, 0⟩, DateTime.invalidDT, ["A"], ["R"], some "L"⟩ rfl rfl

/-- C2: on a row whose columns 3, 4, 5 are present, the map callback of
`getCourseEvents` totally and deterministically produces the event whose
`startDate`/`endDate` are the ISO parses of the `T`-concatenations, whose
`lecturers`/`location` are the `", "`-splits of columns 3 and 4 (the latter
routed through `getKTHLocationURL` when `useKTHPlaces` is on), and whose
`type` is column 5 verbatim. -/
theorem mapReservation_fields (api : TimeEditAPI) (r : RawReservation) (c3 c4 c5 : String)
    (h3 : r.columns.get? 3 = some c3) (h4 : r.columns.get? 4 = some c4)
    (h5 : r.columns.get? 5 = some c5) :
    mapReservation api r = Except.ok
      { startDate := DateTime.fromISO (r.startdate ++ "T" ++ r.starttime)
        endDate := DateTime.fromISO (r.enddate ++ "T" ++ r.endtime)
        lecturers := jsSplit c3 ", "
        location := if api.useKTHPlaces then getKTHLocationURL (jsSplit c4 ", ")
                    else jsSplit c4 ", "
        type := some c5 } ∧
    ∀ r', r' = r → mapReservation api r' = mapReservation api r := by
  refine ⟨?_, fun r' hr => by rw [hr]⟩
  unfold mapReservation
  rw [h3, h4, h5]

/-- Witness for C2 on a concrete six-column row. -/
theorem mapReservation_fields_witness :
    mapReservation ⟨none, false, none, none, true, false⟩
        ⟨"2024-03-01", "10:00", "2024-03-01", "12:00", ["a", "b", "c", "L1, L2", "R1", "Lecture"]⟩
      = Except.ok
        { startDate := DateTime.fromISO ("2024-03-01" ++ "T" ++ "10:00")
          endDate := DateTime.fromISO ("2024-03-01" ++ "T" ++ "12:00")
          lecturers := jsSplit "L1, L2" ", "
          location := if (⟨none, false, none, none, true, false⟩ : TimeEditAPI).useKTHPlaces then
                        getKTHLocationURL (jsSplit "R1" ", ")
                      else jsSplit "R1" ", "
          type := some "Lecture" } ∧
    ∀ r', r' = (⟨"2024-03-01", "10:00", "2024-03-01", "12:00", ["a", "b", "c", "L1, L2", "R1", "Lecture"]⟩ : RawReservation) →
      mapReservation ⟨none, false, none, none, true, false⟩ r'
        = mapReservation ⟨none, false, none, none, true, false⟩
            ⟨"2024-03-01", "10:00", "2024-03-01", "12:00", ["a", "b", "c", "L1, L2", "R1", "Lecture"]⟩ :=
  mapReservation_fields ⟨none, false, none, none, true, false⟩
    ⟨"2024-03-01", "10:00", "2024-03-01", "12:00", ["a", "b", "c", "L1, L2", "R1", "Lecture"]⟩
    "L1, L2" "R1" "Lecture" rfl rfl rfl

/-- C3: the start-date comparison itself keeps an event iff its `endDate` is
strictly before the parsed `filterStartDate` (for `"2024-01-01"` an event
ending 2023-12-31 passes and one ending 2024-01-02 is rejected) — but
`getCourseEvents` passes `this.eventBeforeDate` unbound to `Array.filter`,
so on the very same configuration the pipeline throws a `TypeError` instead
of returning that kept event: the filtering the claim describes never
happens. -/
theorem startDateFilter_divergence :
    (eventBeforeDate
        ⟨none, false, some "2024-01-01", none, false, false⟩
        ⟨DateTime.invalidDT, DateTime.fromISO "2023-12-31T23:00", ["A"], ["R"], some "L"⟩ = true) ∧
    (eventBeforeDate
        ⟨none, false, some "2024-01-01", none, false, false⟩
        ⟨DateTime.invalidDT, DateTime.fromISO "2024-01-02T10:00", ["A"], ["R"], some "L"⟩ = false) ∧
    getCourseEvents ⟨none, false, some "2024-01-01", none, false, false⟩ DateTime.invalidDT
        ⟨some [⟨"2023-12-31", "10:00", "2023-12-31", "11:00", ["a", "b", "c", "A", "R", "L"]⟩]⟩
      = .error .typeError :=
  ⟨rfl, rfl, rfl⟩

/-- C4: `filterEmptyEvents` drops an event exactly when its `lecturers`
sequence is empty, or its `location` sequence is empty, or its `type` is the
empty string; the three checks are independent and an event with all three
fields non-empty is kept. -/
theorem filterEmptyEvents_drops_iff (e : Event) :
    filterEmptyEvents e = false ↔
      (e.lecturers = [] ∨ e.location = [] ∨ e.type = some "") := by
  unfold filterEmptyEvents
  split_ifs with h1 h2 h3
  · simp only [beq_iff_eq, List.length_eq_zero] at h1
    simp [h1]
  · simp only [beq_iff_eq, List.length_eq_zero] at h2
    simp [h2]
  · simp only [beq_iff_eq] at h3
    simp [h3]
  · simp only [beq_iff_eq, List.length_eq_zero] at h1 h2
    simp only [beq_iff_eq] at h3
    simp [h1, h2, h3]

/-- C5: a row whose column 3 is the empty string maps to an event whose
`lecturers` is the one-element sequence `[""]`; its length is 1, the
lecturers-emptiness check of `filterEmptyEvents` does not fire on it, and
the event survives the empty-field filter whenever location and type are
non-empty. -/
theorem emptyLecturerString_not_dropped (api : TimeEditAPI) (r : RawReservation) (c4 : String)
    (h3 : r.columns.get? 3 = some "") (h4 : r.columns.get? 4 = some c4) :
    ∃ ev, mapReservation api r = .ok ev ∧ ev.lecturers = [""] ∧ ev.lecturers.length = 1 ∧
      (ev.lecturers.length == 0) = false ∧
      (ev.location ≠ [] → ev.type ≠ some "" → filterEmptyEvents ev = true) := by
  refine ⟨{ startDate := DateTime.fromISO (r.startdate ++ "T" ++ r.starttime)
            endDate := DateTime.fromISO (r.enddate ++ "T" ++ r.endtime)
            lecturers := [""]
            location := if api.useKTHPlaces then getKTHLocationURL (jsSplit c4 ", ")
                        else jsSplit c4 ", "
            type := r.columns.get? 5 }, ?_, rfl, rfl, rfl, ?_⟩
  · unfold mapReservation
    rw [h3, h4]
    rfl
  · intro hloc htype
    unfold filterEmptyEvents
    have hL : ((if api.useKTHPlaces then getKTHLocationURL (jsSplit c4 ", ")
        else jsSplit c4 ", ").length == 0) = false := by
      simp only [beq_eq_false_iff_ne, ne_eq, List.length_eq_zero]
      exact hloc
    have hT : ((r.columns.get? 5) == some "") = false := by
      simp only [beq_eq_false_iff_ne, ne_eq]
      exact htype
    simp only [List.length_cons, List.length_nil] at hL ⊢
    simp [hL, hT]
    simpa using htype

/-- Witness for C5 on a concrete row with an empty column 3. -/
theorem emptyLecturerString_not_dropped_witness :
    ∃ ev, mapReservation ⟨none, false, none, none, false, false⟩
        ⟨"2024-03-01", "10:00", "2024-03-01", "12:00", ["a", "b", "c", "", "R1", "Lecture"]⟩ = .ok ev ∧
      ev.lecturers = [""] ∧ ev.lecturers.length = 1 ∧
      (ev.lecturers.length == 0) = false ∧
      (ev.location ≠ [] → ev.type ≠ some "" → filterEmptyEvents ev = true) :=
  emptyLecturerString_not_dropped ⟨none, false, none, none, false, false⟩
    ⟨"2024-03-01", "10:00", "2024-03-01", "12:00", ["a", "b", "c", "", "R1", "Lecture"]⟩
    "R1" rfl rfl

/-- C6: `getKTHLocationURL` is a pure 1:1 length-preserving mapping sending
each location token to the fixed KTH search URL built from the token with
its section marker `§` stripped; on input `"§Room 1"` the output URL
contains the query term `Room 1` and no `§` character. -/
theorem getKTHLocationURL_spec (locs : List String) :
    (getKTHLocationURL locs).length = locs.length ∧
    getKTHLocationURL locs = locs.map (fun tok =>
      "https://www.kth.se/search?q=" ++ jsReplaceFirst tok "§" ""
        ++ "&entityFilter=kth-place&filterLabel=Facilities&lang=en") ∧
    getKTHLocationURL ["§Room 1"] =
      ["https://www.kth.se/search?q=Room 1&entityFilter=kth-place&filterLabel=Facilities&lang=en"] ∧
    (∃ pre post,
      "https://www.kth.se/search?q=Room 1&entityFilter=kth-place&filterLabel=Facilities&lang=en"
        = pre ++ "Room 1" ++ post) ∧
    ("https://www.kth.se/search?q=Room 1&entityFilter=kth-place&filterLabel=Facilities&lang=en").data.contains '§'
      = false := by
  have hmap : getKTHLocationURL locs = locs.map (fun tok =>
      "https://www.kth.se/search?q=" ++ jsReplaceFirst tok "§" ""
        ++ "&entityFilter=kth-place&filterLabel=Facilities&lang=en") := by
    unfold getKTHLocationURL
    rw [foldl_push_eq_map]
    rfl
  refine ⟨?_, hmap, rfl, ⟨"https://www.kth.se/search?q=", "&entityFilter=kth-place&filterLabel=Facilities&lang=en", rfl⟩, by decide⟩
  rw [hmap, List.length_map]

/-- The map callback reads only `useKTHPlaces` from the instance. -/
theorem mapReservation_congr (api api' : TimeEditAPI)
    (h : api.useKTHPlaces = api'.useKTHPlaces) (r : RawReservation) :
    mapReservation api r = mapReservation api' r := by
  unfold mapReservation
  rw [h]

/-- The row map reads only `useKTHPlaces` from the instance. -/
theorem mapRows_congr (api api' : TimeEditAPI)
    (h : api.useKTHPlaces = api'.useKTHPlaces) (rows : List RawReservation) :
    mapRows api rows = mapRows api' rows := by
  induction rows with
  | nil => rfl
  | cons r rs ih =>
    unfold mapRows
    rw [mapReservation_congr api api' h r, ih]

/-- Unfolding `getCourseEvents` when the row map throws. -/
theorem getCourseEvents_mapRows_error (api : TimeEditAPI) (now : DateTime)
    (rows : List RawReservation) (er : JsError) (h : mapRows api rows = .error er) :
    getCourseEvents api now ⟨some rows⟩ = .error er := by
  simp only [getCourseEvents]
  rw [h]

/-- Unfolding `getCourseEvents` when the row map succeeds. -/
theorem getCourseEvents_mapRows_ok (api : TimeEditAPI) (now : DateTime)
    (rows : List RawReservation) (evs : List Event) (h : mapRows api rows = .ok evs) :
    getCourseEvents api now ⟨some rows⟩ =
      (let c1 := if api.filterToSemester then evs.filter (eventInCurrentKTHPeriod now) else evs
       let c2 := if api.filterEmpty then c1.filter filterEmptyEvents else c1
       if isTruthy api.filterStartDate then
         if c2.isEmpty then .ok [] else .error .typeError
       else .ok c2) := by
  simp only [getCourseEvents]
  rw [h]

/-- C7: `filterEndDate` (and with it `eventAfterDate`) is never wired into
the pipeline: two `getCourseEvents` runs on the same data whose
configurations differ only in `filterEndDate` return identical results. -/
theorem getCourseEvents_ignores_filterEndDate (api : TimeEditAPI) (now : DateTime)
    (j : JsonData) (d d' : Option String) :
    getCourseEvents { api with filterEndDate := d } now j
      = getCourseEvents { api with filterEndDate := d' } now j := by
  obtain ⟨res⟩ := j
  cases res with
  | none => rfl
  | some rows =>
    have hm := mapRows_congr { api with filterEndDate := d }
      { api with filterEndDate := d' } rfl rows
    cases hmr : mapRows { api with filterEndDate := d' } rows with
    | error er =>
      rw [getCourseEvents_mapRows_error _ now rows er (hm.trans hmr),
        getCourseEvents_mapRows_error _ now rows er hmr]
    | ok evs =>
      rw [getCourseEvents_mapRows_ok _ now rows evs (hm.trans hmr),
        getCourseEvents_mapRows_ok _ now rows evs hmr]

/-- C8 counterexample: a row whose `columns` stops at position 4 (so position
5, the `type` column, is missing) does NOT make the call fail — JavaScript
reads `columns[5]` as `undefined` without throwing, and the call returns a
full event list with an undefined `type`. -/
theorem missingTypeColumn_call_succeeds :
    getCourseEvents ⟨none, false, none, none, false, false⟩ DateTime.invalidDT
        ⟨some [⟨"2024-03-01", "10:00", "2024-03-01", "12:00", ["a", "b", "c", "L1", "R1"]⟩]⟩
      = .ok [{ startDate := ⟨true, 2024, 3, 1, 10, 0, 0⟩
               endDate := ⟨true, 2024, 3, 1, 12, 0, 0⟩
               lecturers := ["L1"]
               location := ["R1"]
               type := none }] := rfl

/-- C8 (amended): the call is all-or-nothing over the mapping stage — a
missing `reservations` sequence fails the whole call, a row missing column 3
or column 4 fails the whole call, and whenever a list is returned every row
mapped successfully (a row missing only column 5 maps fine, with `type`
undefined). -/
theorem getCourseEvents_allOrNothing (api : TimeEditAPI) (now : DateTime) :
    (getCourseEvents api now ⟨none⟩ = .error .typeError) ∧
    (∀ rows, ∀ r ∈ rows, (r.columns.get? 3 = none ∨ r.columns.get? 4 = none) →
      getCourseEvents api now ⟨some rows⟩ = .error .typeError) ∧
    (∀ rows l, getCourseEvents api now ⟨some rows⟩ = .ok l →
      ∀ r ∈ rows, ∃ e, mapReservation api r = .ok e) := by
  refine ⟨rfl, ?_, ?_⟩
  · intro rows r hr hmiss
    exact getCourseEvents_mapRows_error api now rows .typeError
      (mapRows_error_of_mem hr (mapReservation_error_of_missing api r hmiss))
  · intro rows l hok r hr
    cases hm : mapRows api rows with
    | error er =>
      rw [getCourseEvents_mapRows_error api now rows er hm] at hok
      cases hok
    | ok evs => exact mapRows_ok_forall hm r hr

/-- Witness for C8 (amended): a missing `reservations` field and a row with
too few columns each fail a concrete call. -/
theorem getCourseEvents_allOrNothing_witness :
    getCourseEvents ⟨none, false, none, none, false, false⟩ DateTime.invalidDT
        ⟨some [⟨"2024-03-01", "10:00", "2024-03-01", "12:00", ["a", "b", "c"]⟩]⟩
      = .error .typeError :=
  (getCourseEvents_allOrNothing ⟨none, false, none, none, false, false⟩
      DateTime.invalidDT).2.1
    [⟨"2024-03-01", "10:00", "2024-03-01", "12:00", ["a", "b", "c"]⟩]
    ⟨"2024-03-01", "10:00", "2024-03-01", "12:00", ["a", "b", "c"]⟩
    (List.mem_singleton.mpr rfl) (Or.inl rfl)

/-- C9 counterexample: with a truthy `filterStartDate` but an empty event
list, `Array.filter` never invokes the unbound callback, so the call returns
`[]` normally instead of reaching an error state. -/
theorem truthyStartDate_empty_returns_ok :
    isTruthy (some "2024-01-01") = true ∧
    getCourseEvents ⟨none, false, some "2024-01-01", none, false, false⟩ DateTime.invalidDT
        ⟨some []⟩ = .ok [] :=
  ⟨rfl, rfl⟩

/-- C9 (amended): whenever `filterStartDate` is truthy, `getCourseEvents`
either throws the `TypeError` coming from the unbound `this.eventBeforeDate`
callback (as soon as any event reaches the start-date stage) or returns the
empty list; it never returns a non-empty, date-filtered event list. -/
theorem truthyStartDate_blocks_filtering (api : TimeEditAPI) (now : DateTime) (j : JsonData)
    (ht : isTruthy api.filterStartDate = true) :
    getCourseEvents api now j = .error .typeError ∨ getCourseEvents api now j = .ok [] := by
  obtain ⟨res⟩ := j
  cases res with
  | none => exact Or.inl rfl
  | some rows =>
    cases hm : mapRows api rows with
    | error er =>
      cases er
      exact Or.inl (getCourseEvents_mapRows_error api now rows .typeError hm)
    | ok evs =>
      rw [getCourseEvents_mapRows_ok api now rows evs hm]
      simp only [ht, if_true]
      cases hc : (if api.filterEmpty = true then
          List.filter filterEmptyEvents
            (if api.filterToSemester = true then List.filter (eventInCurrentKTHPeriod now) evs
             else evs)
        else
          if api.filterToSemester = true then List.filter (eventInCurrentKTHPeriod now) evs
          else evs).isEmpty <;>
        simp [hc]

/-- Witness for C9 (amended) on a concrete configuration and body. -/
theorem truthyStartDate_blocks_filtering_witness :
    getCourseEvents ⟨none, false, some "2024-01-01", none, true, false⟩ DateTime.invalidDT
        ⟨some []⟩ = .error .typeError ∨
    getCourseEvents ⟨none, false, some "2024-01-01", none, true, false⟩ DateTime.invalidDT
        ⟨some []⟩ = .ok [] :=
  truthyStartDate_blocks_filtering ⟨none, false, some "2024-01-01", none, true, false⟩
    DateTime.invalidDT ⟨some []⟩ rfl

/-- C10: constructing with only a `baseUrl` leaves the defaults
`filterToSemester = true`, `filterEmpty = false`, `useKTHPlaces = false`,
`filterStartDate = filterEndDate = null`, and the resulting pipeline applies
exactly the semester filter and nothing else. -/
theorem construct_defaults (u : String) :
    TimeEditAPI.construct ⟨some u, none, none, none, none, none⟩ =
      { baseUrl := some u, filterEmpty := false, filterStartDate := none,
        filterEndDate := none, filterToSemester := true, useKTHPlaces := false } ∧
    ∀ now rows,
      getCourseEvents (TimeEditAPI.construct ⟨some u, none, none, none, none, none⟩) now
          ⟨some rows⟩
        = (mapRows (TimeEditAPI.construct ⟨some u, none, none, none, none, none⟩) rows).map
            (fun evs => evs.filter (eventInCurrentKTHPeriod now)) := by
  refine ⟨rfl, ?_⟩
  intro now rows
  cases hm : mapRows (TimeEditAPI.construct ⟨some u, none, none, none, none, none⟩) rows with
  | error er =>
    rw [getCourseEvents_mapRows_error _ now rows er hm]
    rfl
  | ok evs =>
    rw [getCourseEvents_mapRows_ok _ now rows evs hm]
    rfl
